import Mathlib

/-!
Shallow embedding of the projection engine of the mpris_server repository:
the metadata codec and validator (src/mpris_server/mpris/metadata.py), the
property-group registry and change notifier (src/mpris_server/base.py) and
the desktop-entry helper (src/mpris_server/interfaces/root.py), together
with theorems settling the specification claims about them.
-/

/-- Model of a Python runtime value as it flows through the metadata codec:
the absent sentinel None, strings, ints, floats, bools, lists, dicts,
tuples, and a catch-all for any other object. Floats are modelled as
rationals; only their runtime type tag matters to the code under study. -/
inductive PyVal where
  | none
  | str (s : String)
  | int (n : Int)
  | float (q : Rat)
  | bool (b : Bool)
  | list (xs : List PyVal)
  | dict (kvs : List (PyVal × PyVal))
  | tuple (xs : List PyVal)
  | obj (tag : String)

/-- The runtime type (Python `type(v)`) of a value, as a tag. -/
inductive PyTypeTag where
  | noneType
  | strT
  | intT
  | floatT
  | boolT
  | listT
  | dictT
  | tupleT
  | objT
deriving DecidableEq

/-- `type(v)` for the modelled values. -/
def PyVal.runtimeType : PyVal → PyTypeTag
  | .none => .noneType
  | .str _ => .strT
  | .int _ => .intT
  | .float _ => .floatT
  | .bool _ => .boolT
  | .list _ => .listT
  | .dict _ => .dictT
  | .tuple _ => .tupleT
  | .obj _ => .objT

/-- `v is None` in Python. -/
def PyVal.isNone : PyVal → Bool
  | .none => true
  | _ => false

/-- A Python type annotation as used in the type tables (`PyType` in
base.py): either a plain runtime type or a generic alias such as
`list[str]`. -/
inductive PyTypeDesc where
  | plain (t : PyTypeTag)
  | listOf (t : PyTypeTag)
deriving DecidableEq

/-- types.py is absent from the sources. Modelled from the spec:
`is_type` recognises both plain runtime types and generic aliases, so every
entry of the type tables counts as a type. -/
def is_type (_ : PyTypeDesc) : Bool := true

/-- types.py is absent from the sources. Modelled from the spec:
`get_type` maps a type annotation to its runtime type (the origin of a
generic alias, e.g. `list[str]` to `list`; a plain type to itself). -/
def get_type : PyTypeDesc → PyTypeTag
  | .plain t => t
  | .listOf _ => .listT

/- ---------- base.py ---------- -/

/-- base.py: `DEFAULT_TRACK_ID = '/default/1'`. -/
def DEFAULT_TRACK_ID : String := "/default/1"

/-- base.py: the `Property` StrEnum of all declared protocol properties. -/
inductive Property where
  | ActivePlaylist
  | CanControl
  | CanEditTracks
  | CanGoNext
  | CanGoPrevious
  | CanPause
  | CanPlay
  | CanQuit
  | CanRaise
  | CanSeek
  | CanSetFullscreen
  | DesktopEntry
  | Fullscreen
  | HasTrackList
  | Identity
  | LoopStatus
  | MaximumRate
  | Metadata
  | MinimumRate
  | Orderings
  | PlaybackStatus
  | PlaylistCount
  | Position
  | Rate
  | Shuffle
  | SupportedMimeTypes
  | SupportedUriSchemes
  | Tracks
  | Volume
deriving DecidableEq

/-- base.py: `DbusTypes` type strings, composed exactly as in the source. -/
def DbusTypes.BOOLEAN : String := "b"

def DbusTypes.STRING : String := "s"

def DbusTypes.DOUBLE : String := "d"

def DbusTypes.INT32 : String := "i"

def DbusTypes.INT64 : String := "x"

def DbusTypes.OBJ : String := "o"

def DbusTypes.UINT32 : String := "u"

def DbusTypes.UINT64 : String := "t"

def DbusTypes.ARRAY : String := "a"

def DbusTypes.STRING_ARRAY : String := DbusTypes.ARRAY ++ DbusTypes.STRING

def DbusTypes.OBJ_ARRAY : String := DbusTypes.ARRAY ++ DbusTypes.OBJ

/-- base.py: property groups notified on specific state-change events. -/
def ON_ENDED_PROPS : List Property := [.PlaybackStatus]

def ON_VOLUME_PROPS : List Property := [.Metadata, .Volume]

def ON_PLAYBACK_PROPS : List Property :=
  [.CanControl, .MaximumRate, .Metadata, .MinimumRate, .PlaybackStatus, .Rate]

def ON_PLAYPAUSE_PROPS : List Property := [.PlaybackStatus]

def ON_TITLE_PROPS : List Property := [.Metadata]

def ON_OPTION_PROPS : List Property :=
  [.CanGoNext, .CanGoPrevious, .CanPause, .CanPlay, .LoopStatus, .Shuffle]

def ON_SEEK_PROPS : List Property := [.CanSeek, .Position]

/-- base.py: `ON_PLAYER_PROPS = list({*ON_ENDED_PROPS, *ON_OPTION_PROPS,
*ON_PLAYBACK_PROPS, *ON_PLAYPAUSE_PROPS, *ON_SEEK_PROPS, *ON_TITLE_PROPS,
*ON_VOLUME_PROPS})`: a duplicate-free list enumerating the set union of the
seven groups (CPython leaves the list order unspecified; the deduplicated
insertion order is used here). -/
def ON_PLAYER_PROPS : List Property :=
  (ON_ENDED_PROPS ++ ON_OPTION_PROPS ++ ON_PLAYBACK_PROPS ++
    ON_PLAYPAUSE_PROPS ++ ON_SEEK_PROPS ++ ON_TITLE_PROPS ++
    ON_VOLUME_PROPS).dedup

/- ---------- mpris/metadata.py ---------- -/

/-- metadata.py: the `MetadataEntries` StrEnum, in declaration order. -/
def MetadataEntries.TRACKID : String := "mpris:trackid"

def MetadataEntries.LENGTH : String := "mpris:length"

def MetadataEntries.ART_URL : String := "mpris:artUrl"

def MetadataEntries.URL : String := "xesam:url"

def MetadataEntries.TITLE : String := "xesam:title"

def MetadataEntries.ARTIST : String := "xesam:artist"

def MetadataEntries.ALBUM : String := "xesam:album"

def MetadataEntries.ALBUM_ARTIST : String := "xesam:albumArtist"

def MetadataEntries.DISC_NUMBER : String := "xesam:discNumber"

def MetadataEntries.TRACK_NUMBER : String := "xesam:trackNumber"

def MetadataEntries.COMMENT : String := "xesam:comment"

/-- Iteration order of the `MetadataEntries` StrEnum (its declaration
order), as produced by `zip(MetadataEntries, self)` in `to_dict`. -/
def metadataEntriesOrder : List String :=
  [MetadataEntries.TRACKID, MetadataEntries.LENGTH, MetadataEntries.ART_URL,
   MetadataEntries.URL, MetadataEntries.TITLE, MetadataEntries.ARTIST,
   MetadataEntries.ALBUM, MetadataEntries.ALBUM_ARTIST,
   MetadataEntries.DISC_NUMBER, MetadataEntries.TRACK_NUMBER,
   MetadataEntries.COMMENT]

/-- metadata.py: `METADATA_TYPES`, the map from metadata entry to its D-Bus
type string. -/
def METADATA_TYPES : List (String × String) :=
  [(MetadataEntries.TRACKID, DbusTypes.OBJ),
   (MetadataEntries.LENGTH, DbusTypes.INT64),
   (MetadataEntries.ART_URL, DbusTypes.STRING),
   (MetadataEntries.URL, DbusTypes.STRING),
   (MetadataEntries.TITLE, DbusTypes.STRING),
   (MetadataEntries.ARTIST, DbusTypes.STRING_ARRAY),
   (MetadataEntries.ALBUM, DbusTypes.STRING),
   (MetadataEntries.ALBUM_ARTIST, DbusTypes.STRING_ARRAY),
   (MetadataEntries.DISC_NUMBER, DbusTypes.INT32),
   (MetadataEntries.TRACK_NUMBER, DbusTypes.INT32),
   (MetadataEntries.COMMENT, DbusTypes.STRING_ARRAY)]

/-- metadata.py: `DBUS_PY_TYPES`, the map from D-Bus type to internal
Python type (`MprisTypes` values of base.py). -/
def DBUS_PY_TYPES : List (String × PyTypeDesc) :=
  [(DbusTypes.OBJ, .plain .strT),
   (DbusTypes.STRING, .plain .strT),
   (DbusTypes.INT32, .plain .intT),
   (DbusTypes.INT64, .plain .intT),
   (DbusTypes.UINT32, .plain .intT),
   (DbusTypes.UINT64, .plain .intT),
   (DbusTypes.DOUBLE, .plain .floatT),
   (DbusTypes.BOOLEAN, .plain .boolT),
   (DbusTypes.OBJ_ARRAY, .listOf .strT),
   (DbusTypes.STRING_ARRAY, .listOf .strT)]

/-- metadata.py: `get_runtime_types` collects `{get_type(val) for val in
DBUS_PY_TYPES.values() if is_type(val)}` (deduplicated). -/
def get_runtime_types : List PyTypeTag :=
  ((DBUS_PY_TYPES.map Prod.snd).filter is_type |>.map get_type).dedup

/-- metadata.py: `DBUS_RUNTIME_TYPES = get_runtime_types()`. -/
def DBUS_RUNTIME_TYPES : List PyTypeTag := get_runtime_types

/-- metadata.py: `is_null_list(obj)` is true when `obj` is a list every
item of which is None; any non-list is not a null list. -/
def is_null_list : PyVal → Bool
  | .list xs => xs.all (fun item => item.isNone)
  | _ => false

/-- metadata.py: `is_dbus_type(obj) = isinstance(obj, DBUS_RUNTIME_TYPES)`. -/
def is_dbus_type (obj : PyVal) : Bool :=
  DBUS_RUNTIME_TYPES.contains obj.runtimeType

/-- metadata.py: `is_valid_metadata(entry, obj)`: false if `obj is None`
or the entry is not a key of METADATA_TYPES; otherwise true exactly when
the value is of a declared runtime type and not a null list. -/
def is_valid_metadata (entry : String) (obj : PyVal) : Bool :=
  if obj.isNone || !(METADATA_TYPES.any (fun kv => kv.1 == entry)) then
    false
  else
    is_dbus_type obj && !is_null_list obj

/-- A GLib `Variant(type_string, value)` at the codec boundary, modelled as
the pair of its type string and payload. -/
structure Variant where
  typeString : String
  value : PyVal

/-- metadata.py: `get_dbus_var(entry, obj) = Variant(METADATA_TYPES[entry], obj)`
(only reached for entries present in METADATA_TYPES). -/
def get_dbus_var (entry : String) (obj : PyVal) : Variant :=
  ⟨(METADATA_TYPES.lookup entry).getD "", obj⟩

/-- metadata.py: the `MetadataObj` NamedTuple, fields in declaration
order; every slot optional except `track_id`, which defaults to
DEFAULT_TRACK_ID. -/
structure MetadataObj where
  title : Option String := Option.none
  artists : Option (List String) := Option.none
  album : Option String := Option.none
  album_artists : Option (List String) := Option.none
  length : Option Int := Option.none
  url : Option String := Option.none
  art_url : Option String := Option.none
  disc_no : Option Int := Option.none
  track_no : Option Int := Option.none
  comments : Option (List String) := Option.none
  track_id : String := DEFAULT_TRACK_ID

/-- An optional string slot of `MetadataObj` as the Python value it holds. -/
def optStr : Option String → PyVal
  | Option.none => .none
  | Option.some s => .str s

/-- An optional string-list slot of `MetadataObj` as the Python value it
holds. -/
def optStrList : Option (List String) → PyVal
  | Option.none => .none
  | Option.some xs => .list (xs.map .str)

/-- An optional int slot of `MetadataObj` as the Python value it holds. -/
def optInt : Option Int → PyVal
  | Option.none => .none
  | Option.some n => .int n

/-- Tuple iteration of a `MetadataObj` (NamedTuple field declaration
order), as consumed by `zip(MetadataEntries, self)`. -/
def MetadataObj.fieldValues (m : MetadataObj) : List PyVal :=
  [optStr m.title, optStrList m.artists, optStr m.album,
   optStrList m.album_artists, optInt m.length, optStr m.url,
   optStr m.art_url, optInt m.disc_no, optInt m.track_no,
   optStrList m.comments, .str m.track_id]

/-- metadata.py: `MetadataObj.to_dict` builds
`{key: val for key, val in zip(MetadataEntries, self) if val is not None}`:
entries in StrEnum order are paired positionally with the tuple fields in
their own declaration order, keeping non-None values. -/
def MetadataObj.to_dict (m : MetadataObj) : List (String × PyVal) :=
  (metadataEntriesOrder.zip m.fieldValues).filter (fun kv => !kv.2.isNone)

/-- metadata.py: `get_dbus_metadata` on a raw metadata mapping: keep the
pairs accepted by `is_valid_metadata`, wrapping each value as a Variant. -/
def get_dbus_metadata (metadata : List (String × PyVal)) :
    List (String × Variant) :=
  (metadata.filter (fun kv => is_valid_metadata kv.1 kv.2)).map
    (fun kv => (kv.1, get_dbus_var kv.1 kv.2))

/-- metadata.py: `get_dbus_metadata` on a structured `MetadataObj`: first
project it through `to_dict`, then encode the resulting mapping. -/
def get_dbus_metadataObj (m : MetadataObj) : List (String × Variant) :=
  get_dbus_metadata m.to_dict

/- ---------- base.py: dbus_emit_changes ---------- -/

/-- One call of the transport announcer
(`interface.PropertiesChanged(interface_name, changed, invalidated)`),
an external boundary per the spec. -/
structure Announcement where
  iface : String
  changed : List (Property × PyVal)
  invalidated : List Property

/-- The per-property read `getattr(interface, prop)` performed by the dict
comprehension of `dbus_emit_changes`: reading a property consults the
externally mutable state and may raise, modelled by `Except`. Evaluation is
in list order and the first raise aborts the comprehension. -/
def readProps (get : Property → Except Unit PyVal) :
    List Property → Except Unit (List (Property × PyVal))
  | [] => .ok []
  | p :: rest =>
    match get p with
    | .error e => .error e
    | .ok v =>
      match readProps get rest with
      | .error e => .error e
      | .ok tail => .ok ((p, v) :: tail)

/-- base.py: `dbus_emit_changes(interface, changes)` builds
`prop_vals = {prop: getattr(interface, prop) for prop in changes}` and then
makes the single call
`interface.PropertiesChanged(interface.INTERFACE, prop_vals, [])`. The
returned list holds the announcer calls made (one on success); a raise
during the comprehension propagates and no call is made. -/
def dbus_emit_changes (iface : String) (get : Property → Except Unit PyVal)
    (changes : List Property) : Except Unit (List Announcement) :=
  match readProps get changes with
  | .error e => .error e
  | .ok prop_vals => .ok [⟨iface, prop_vals, []⟩]

/- ---------- interfaces/root.py ---------- -/

/-- root.py: `NO_SUFFIX = ''`. -/
def NO_SUFFIX : String := ""

/-- root.py: `DESKTOP_EXT = '.desktop'`. -/
def DESKTOP_EXT : String := ".desktop"

/-- Python `str.endswith(suffix)`. -/
def endswith (s suffix : String) : Bool :=
  List.isSuffixOf suffix.toList s.toList

/-- Python `str.rstrip(chars)`: remove every trailing character that is a
member of the character set `chars`. -/
def rstrip (s chars : String) : String :=
  String.mk
    ((s.toList.reverse.dropWhile (fun c => chars.toList.contains c)).reverse)

/-- The `Paths` argument of `get_desktop_entry`: either a plain string or
a `PurePath`, the latter modelled at the pathlib boundary by its parsed
path components (final component last). -/
inductive Paths where
  | pyStr (s : String)
  | purePath (parts : List String)

/-- Index of the last occurrence of a dot in a character list
(Python `name.rfind(chr46)`), if any. -/
def lastDotIdx (cs : List Char) : Option Nat :=
  ((List.range cs.length).filter (fun i => cs.getD i ' ' == '.')).getLast?

/-- pathlib boundary: `PurePath.with_suffix('')` on the final component
name: drop the suffix `name[i:]` where `i` is the last dot position,
provided `0 < i < len(name) - 1`; otherwise the name has no suffix and is
unchanged. -/
def dropLastSuffix (name : String) : String :=
  let cs := name.toList
  match lastDotIdx cs with
  | Option.some i =>
    if 0 < i ∧ i < cs.length - 1 then String.mk (cs.take i) else name
  | Option.none => name

/-- `path.with_suffix('')` on the parsed components: only the final
component's suffix is removed. -/
def withSuffixEmpty (parts : List String) : List String :=
  match parts.getLast? with
  | Option.none => parts
  | Option.some last => parts.dropLast ++ [dropLastSuffix last]

/-- `str(path)` on the parsed components. -/
def joinParts (parts : List String) : String :=
  String.intercalate "/" parts

/-- root.py: `get_desktop_entry(path)`: a PurePath first has its final
suffix removed by `with_suffix(NO_SUFFIX)`; then, on the resulting name
string, if it ends with '.desktop' it is `rstrip`-ped with that extension
as the character set. -/
def get_desktop_entry (path : Paths) : String :=
  let name :=
    match path with
    | .pyStr s => s
    | .purePath parts => joinParts (withSuffixEmpty parts)
  if endswith name DESKTOP_EXT then rstrip name DESKTOP_EXT else name

/- ---------- concrete inputs used by individual claims ---------- -/

/-- The record of the round-trip example: title "Song", length 120000000,
track id "/t/1", all other slots unset. -/
def metadataSongInput : MetadataObj :=
  { title := Option.some "Song", length := Option.some 120000000,
    track_id := "/t/1" }

/-- A state accessor whose read raises for CanSeek and succeeds for every
other property, returning position 5. -/
def seekReadFail : Property → Except Unit PyVal
  | .CanSeek => .error ()
  | _ => .ok (.int 5)

/- ---------- helper lemmas ---------- -/

theorem readProps_error (g : Property → Except Unit PyVal)
    (changes : List Property) (p : Property) (hp : p ∈ changes)
    (herr : g p = .error ()) : readProps g changes = .error () := by
  induction changes with
  | nil => cases hp
  | cons c cs ih =>
    rcases List.mem_cons.mp hp with rfl | hmem
    · simp [readProps, herr]
    · cases hgc : g c with
      | error e => simp [readProps, hgc]
      | ok v => simp [readProps, hgc, ih hmem]

theorem readProps_ok_map (g : Property → Except Unit PyVal)
    (v : Property → PyVal) (changes : List Property)
    (h : ∀ p ∈ changes, g p = .ok (v p)) :
    readProps g changes = .ok (changes.map (fun p => (p, v p))) := by
  induction changes with
  | nil => simp [readProps]
  | cons c cs ih =>
    have hc := h c (List.mem_cons_self c cs)
    have hrest := ih (fun p hp => h p (List.mem_cons_of_mem c hp))
    simp [readProps, hc, hrest]

/- ---------- claims ---------- -/

/-- Claim C1: the claim predicts that encoding projects each named slot to
its corresponding wire field, so the example record would encode to
xesam:title="Song", mpris:length=120000000, mpris:trackid="/t/1". The code
instead zips the entry names positionally against the differently ordered
tuple fields: title lands under mpris:trackid, length under xesam:title and
track_id under xesam:comment, and mpris:length is absent altogether. -/
theorem claim_C1_to_dict_misaligned :
    get_dbus_metadataObj metadataSongInput =
      [(MetadataEntries.TRACKID, ⟨DbusTypes.OBJ, PyVal.str "Song"⟩),
       (MetadataEntries.TITLE, ⟨DbusTypes.STRING, PyVal.int 120000000⟩),
       (MetadataEntries.COMMENT,
         ⟨DbusTypes.STRING_ARRAY, PyVal.str "/t/1"⟩)] ∧
    (get_dbus_metadataObj metadataSongInput).lookup
      MetadataEntries.LENGTH = Option.none ∧
    (get_dbus_metadataObj metadataSongInput).lookup
      MetadataEntries.TRACKID =
      Option.some ⟨DbusTypes.OBJ, PyVal.str "Song"⟩ := by
  refine ⟨rfl, rfl, rfl⟩

/-- Claim C2: the claim predicts that the default record encodes to the
single entry mpris:trackid="/default/1". The positional zip instead pairs
the track-id slot with the last entry name, xesam:comment, so the code
produces the single entry xesam:comment="/default/1" and no mpris:trackid
entry at all. -/
theorem claim_C2_default_encodes_to_comment :
    get_dbus_metadataObj {} =
      [(MetadataEntries.COMMENT,
        ⟨DbusTypes.STRING_ARRAY, PyVal.str DEFAULT_TRACK_ID⟩)] ∧
    (get_dbus_metadataObj {}).lookup MetadataEntries.TRACKID =
      Option.none := by
  refine ⟨rfl, rfl⟩

/-- Claim C3 counterexample: with an accessor that raises for CanSeek and
returns 5 for Position, emitting for the seek group aborts with the raise:
no announcement at all is made, in particular not the announcement holding
the remaining field that the claim predicts. -/
theorem claim_C3_counterexample :
    seekReadFail Property.CanSeek = .error () ∧
    seekReadFail Property.Position = .ok (.int 5) ∧
    dbus_emit_changes "org.mpris.MediaPlayer2.Player" seekReadFail
      ON_SEEK_PROPS = .error () ∧
    dbus_emit_changes "org.mpris.MediaPlayer2.Player" seekReadFail
      ON_SEEK_PROPS ≠
      .ok [⟨"org.mpris.MediaPlayer2.Player",
            [(Property.Position, PyVal.int 5)], []⟩] := by
  refine ⟨rfl, rfl, rfl, ?_⟩
  intro h
  exact Except.noConfusion h

/-- Claim C3 amended: if reading one field of the group raises, the raise
propagates out of dbus_emit_changes: the whole batch is aborted and no
announcement is made, rather than the failing field being omitted. -/
theorem claim_C3_amended_read_failure_aborts_batch
    (iface : String) (g : Property → Except Unit PyVal)
    (changes : List Property) (p : Property) (hp : p ∈ changes)
    (herr : g p = .error ()) :
    dbus_emit_changes iface g changes = .error () := by
  simp [dbus_emit_changes, readProps_error g changes p hp herr]

/-- Claim C3 amended, witness at a concrete failing accessor. -/
theorem claim_C3_amended_witness :
    Property.CanSeek ∈ ON_SEEK_PROPS ∧
    seekReadFail Property.CanSeek = .error () ∧
    dbus_emit_changes "org.mpris.MediaPlayer2.Player" seekReadFail
      ON_SEEK_PROPS = .error () :=
  ⟨by decide, rfl,
    claim_C3_amended_read_failure_aborts_batch
      "org.mpris.MediaPlayer2.Player" seekReadFail ON_SEEK_PROPS
      Property.CanSeek (by decide) rfl⟩

/-- Claim C4: for a declared entry and a non-None value that is not a null
list, is_valid_metadata accepts exactly when the runtime type of the value
belongs to the set of all declared internal runtime types; and it rejects
outright when the value is None or the entry is undeclared. -/
theorem claim_C4_validator_type_membership (f : String) (v : PyVal) :
    (METADATA_TYPES.any (fun kv => kv.1 == f) = true →
      v.isNone = false → is_null_list v = false →
      (is_valid_metadata f v = true ↔
        v.runtimeType ∈ DBUS_RUNTIME_TYPES)) ∧
    is_valid_metadata f PyVal.none = false ∧
    (METADATA_TYPES.any (fun kv => kv.1 == f) = false →
      is_valid_metadata f v = false) := by
  refine ⟨?_, rfl, ?_⟩
  · intro hdecl hnone hnl
    simp [is_valid_metadata, hdecl, hnone, hnl, is_dbus_type,
      List.contains, List.elem_iff]
  · intro hnd
    simp [is_valid_metadata, hnd]

/-- Claim C4, witness: the title entry accepts a string (its runtime type
is declared) and an int (another declared runtime type, not its own),
while None and an undeclared entry are rejected. -/
theorem claim_C4_witness :
    is_valid_metadata MetadataEntries.TITLE (PyVal.str "Song") = true ∧
    is_valid_metadata MetadataEntries.TITLE (PyVal.int 7) = true ∧
    is_valid_metadata MetadataEntries.TITLE PyVal.none = false ∧
    is_valid_metadata "bogus" (PyVal.str "Song") = false :=
  ⟨((claim_C4_validator_type_membership MetadataEntries.TITLE
      (PyVal.str "Song")).1 (by rfl) (by rfl) (by rfl)).mpr (by decide),
   ((claim_C4_validator_type_membership MetadataEntries.TITLE
      (PyVal.int 7)).1 (by rfl) (by rfl) (by rfl)).mpr (by decide),
   (claim_C4_validator_type_membership MetadataEntries.TITLE
      PyVal.none).2.1,
   (claim_C4_validator_type_membership "bogus"
      (PyVal.str "Song")).2.2 (by rfl)⟩

/-- Claim C5: a sequence whose elements are all the absent sentinel is
rejected by is_valid_metadata for every field, even though its runtime
type (list) is among the declared types. -/
theorem claim_C5_null_list_rejected (f : String) (xs : List PyVal)
    (h : ∀ x ∈ xs, x = PyVal.none) :
    is_valid_metadata f (PyVal.list xs) = false := by
  have hnl : is_null_list (PyVal.list xs) = true := by
    simp only [is_null_list, List.all_eq_true]
    intro x hx
    rw [h x hx]
    rfl
  cases hany : METADATA_TYPES.any (fun kv => kv.1 == f) with
  | false => simp [is_valid_metadata, hany]
  | true => simp [is_valid_metadata, hany, hnl]

/-- Claim C5, witness: the artist entry rejects the list of two Nones. -/
theorem claim_C5_witness :
    is_valid_metadata MetadataEntries.ARTIST
      (PyVal.list [PyVal.none, PyVal.none]) = false :=
  claim_C5_null_list_rejected MetadataEntries.ARTIST
    [PyVal.none, PyVal.none]
    (by
      intro x hx
      cases hx with
      | head => rfl
      | tail _ hx =>
        cases hx with
        | head => rfl
        | tail _ hx => cases hx)

/-- Claim C6: the umbrella player-property group is, as a set, exactly the
union of the seven named player event groups, it holds no duplicates, and
a field occurring in three groups (PlaybackStatus) appears exactly once. -/
theorem claim_C6_player_props_union :
    ON_PLAYER_PROPS.toFinset =
      ON_ENDED_PROPS.toFinset ∪ ON_OPTION_PROPS.toFinset ∪
      ON_PLAYBACK_PROPS.toFinset ∪ ON_PLAYPAUSE_PROPS.toFinset ∪
      ON_SEEK_PROPS.toFinset ∪ ON_TITLE_PROPS.toFinset ∪
      ON_VOLUME_PROPS.toFinset ∧
    ON_PLAYER_PROPS.Nodup ∧
    ON_PLAYER_PROPS.count Property.PlaybackStatus = 1 := by
  refine ⟨by decide, by decide, by decide⟩

/-- Claim C7: the seek event group is, as a set, exactly
{CanSeek, Position}. -/
theorem claim_C7_seek_group :
    ON_SEEK_PROPS.toFinset = {Property.CanSeek, Property.Position} := by
  decide

/-- Claim C8: when every read succeeds, one dbus_emit_changes call makes
exactly one announcement, whatever the size of the group, carrying all the
group fields and the empty invalidated set. -/
theorem claim_C8_single_batched_announcement (iface : String)
    (g : Property → Except Unit PyVal) (v : Property → PyVal)
    (changes : List Property) (h : ∀ p ∈ changes, g p = .ok (v p)) :
    dbus_emit_changes iface g changes =
      .ok [⟨iface, changes.map (fun p => (p, v p)), []⟩] := by
  simp [dbus_emit_changes, readProps_ok_map g v changes h]

/-- Claim C8, witness: a concrete accessor over the whole player group
yields the single announcement with empty invalidated set. -/
theorem claim_C8_witness :
    dbus_emit_changes "org.mpris.MediaPlayer2.Player"
      (fun _ => .ok (PyVal.bool true)) ON_PLAYER_PROPS =
      .ok [⟨"org.mpris.MediaPlayer2.Player",
            ON_PLAYER_PROPS.map (fun p => (p, PyVal.bool true)), []⟩] :=
  claim_C8_single_batched_announcement "org.mpris.MediaPlayer2.Player"
    (fun _ => .ok (PyVal.bool true)) (fun _ => PyVal.bool true)
    ON_PLAYER_PROPS (fun _ _ => rfl)

/-- Claim C9: the empty list is a null list (the all-None check is
vacuously true on it), so is_valid_metadata rejects it for every field,
declared or not. -/
theorem claim_C9_empty_list_invalid :
    (∀ f : String, is_valid_metadata f (PyVal.list []) = false) ∧
    is_null_list (PyVal.list []) = true := by
  refine ⟨?_, rfl⟩
  intro f
  cases hany : METADATA_TYPES.any (fun kv => kv.1 == f) with
  | false => simp [is_valid_metadata, hany]
  | true => simp [is_valid_metadata, hany, is_null_list]

/-- Claim C10: for a string ending in ".desktop", get_desktop_entry
applies rstrip with the extension as a character set, which can remove
more than the suffix ("mydesktop.desktop" becomes "my", not "mydesktop");
a PurePath input first has only its final path suffix removed. -/
theorem claim_C10_desktop_entry_rstrip :
    (∀ s : String, endswith s DESKTOP_EXT = true →
      get_desktop_entry (.pyStr s) = rstrip s DESKTOP_EXT) ∧
    get_desktop_entry (.pyStr "mydesktop.desktop") = "my" ∧
    get_desktop_entry (.pyStr "mydesktop.desktop") ≠ "mydesktop" ∧
    (∀ parts : List String, get_desktop_entry (.purePath parts) =
      get_desktop_entry (.pyStr (joinParts (withSuffixEmpty parts)))) := by
  refine ⟨?_, by rfl, by decide, fun parts => rfl⟩
  intro s h
  simp [get_desktop_entry, h]

/-- Claim C10, witness: a concrete path ending in ".desktop" takes the
rstrip branch. -/
theorem claim_C10_witness :
    endswith "my.desktop" DESKTOP_EXT = true ∧
    get_desktop_entry (.pyStr "my.desktop") =
      rstrip "my.desktop" DESKTOP_EXT :=
  ⟨by rfl, claim_C10_desktop_entry_rstrip.1 "my.desktop" (by rfl)⟩
